import Mathlib

/-!
Verification of the talkto repository core: the direct-message queue state
machine (src/talkto/db.py, src/talkto/server.py, src/talkto/tools.py), the
agent credential store (src/talkto/db.py, src/backend/app/services), the
liveness oracle and ghost detection (src/backend/app/services/agent_invoker.py),
session discovery (src/backend/app/services/agent_discovery.py) and the
backend supervisor (src/talkto/backends.py).

Tables with a unique key are modelled as functions from the key to an
optional row.  Network and process probes are oracle parameters.  Python
truthiness of optional strings is modelled explicitly by `truthy`.
-/

namespace TalkTo

/-- Python truthiness of an optional string: None and the empty string are falsy. -/
def truthy : Option String → Bool
  | none => false
  | some s => s ≠ ""

/-- A row of the direct_queue table (src/talkto/models.py DirectQueueEntry);
timestamps are modelled as naturals. -/
structure DirectQueueEntry where
  id : String
  from_agent : String
  to_agent : String
  prompt : String
  wrapped_prompt : String
  chat_message_id : Option Nat := none
  status : String := "pending"
  created_at : Nat := 0
  delivered_at : Option Nat := none
  responded_at : Option Nat := none
  response : Option String := none
  deriving Repr, DecidableEq

/-- The direct_queue table, keyed by its primary key id. -/
abbrev Queue := String → Option DirectQueueEntry

/-- Statuses accepted by the guarded UPDATEs: status IN (pending, delivered). -/
def canRespondStatus (s : String) : Bool :=
  s = "pending" || s = "delivered"

/-- The terminal statuses of the spec invariant. -/
def terminalStatus (s : String) : Bool :=
  s = "responded" || s = "expired" || s = "fallback"

/-- db.mark_direct_delivered: SET status=delivered, delivered_at=now WHERE id=?
(no status guard in the source). -/
def markDirectDelivered (now : Nat) (entryId : String) (q : Queue) : Queue :=
  fun i =>
    if i = entryId then
      (q i).map fun e => { e with status := "delivered", delivered_at := some now }
    else q i

/-- db.mark_direct_responded: SET status=responded, responded_at=now, response=?
WHERE id=? AND status IN (pending, delivered); also returns rowcount>0. -/
def markDirectResponded (now : Nat) (entryId resp : String) (q : Queue) :
    Queue × Bool :=
  (fun i =>
    if i = entryId then
      (q i).map fun e =>
        if canRespondStatus e.status then
          { e with status := "responded", responded_at := some now,
                   response := some resp }
        else e
    else q i,
   match q entryId with
   | some e => canRespondStatus e.status
   | none => false)

/-- db.mark_direct_expired: SET status=expired WHERE id=? AND status IN
(pending, delivered). -/
def markDirectExpired (entryId : String) (q : Queue) : Queue :=
  fun i =>
    if i = entryId then
      (q i).map fun e =>
        if canRespondStatus e.status then { e with status := "expired" } else e
    else q i

/-- db.mark_direct_fallback: SET status=fallback WHERE id=? AND status IN
(pending, delivered). -/
def markDirectFallback (entryId : String) (q : Queue) : Queue :=
  fun i =>
    if i = entryId then
      (q i).map fun e =>
        if canRespondStatus e.status then { e with status := "fallback" } else e
    else q i

/-- db.get_direct_entry: SELECT * FROM direct_queue WHERE id=?. -/
def getDirectEntry (entryId : String) (q : Queue) : Option DirectQueueEntry :=
  q entryId

/-- A concrete terminal entry used by counterexamples. -/
def respondedEntry : DirectQueueEntry :=
  { id := "dm1", from_agent := "yara", to_agent := "nibex", prompt := "ping",
    wrapped_prompt := "wrapped ping", status := "responded",
    responded_at := some 3, response := some "pong" }

/-- A queue holding exactly the entry dm1 in status responded. -/
def respondedQueue : Queue :=
  fun i => if i = "dm1" then some respondedEntry else none

/-- Claim C1 (amended part): once an entry is in a terminal status
(responded, expired, fallback), the guarded writers mark_direct_responded,
mark_direct_expired and mark_direct_fallback leave the whole row unchanged:
status, timestamps and response are untouched. -/
theorem C1_terminal_marks_immutable (q : Queue) (now : Nat)
    (eid1 eid2 eid3 resp i : String) (e : DirectQueueEntry)
    (hq : q i = some e) (ht : terminalStatus e.status = true) :
    (markDirectResponded now eid1 resp q).1 i = some e ∧
    markDirectExpired eid2 q i = some e ∧
    markDirectFallback eid3 q i = some e := by
  have hcr : canRespondStatus e.status = false := by
    simp only [terminalStatus, Bool.or_eq_true, decide_eq_true_eq] at ht
    rcases ht with (h | h) | h <;> rw [h] <;> decide
  refine ⟨?_, ?_, ?_⟩
  · by_cases h : i = eid1
    · subst h; simp [markDirectResponded, hq, hcr]
    · simp [markDirectResponded, h, hq]
  · by_cases h : i = eid2
    · subst h; simp [markDirectExpired, hq, hcr]
    · simp [markDirectExpired, h, hq]
  · by_cases h : i = eid3
    · subst h; simp [markDirectFallback, hq, hcr]
    · simp [markDirectFallback, h, hq]

/-- Witness for C1_terminal_marks_immutable at a concrete responded entry. -/
theorem C1_terminal_marks_immutable_witness :
    (markDirectResponded 9 "dm1" "late" respondedQueue).1 "dm1" = some respondedEntry ∧
    markDirectExpired "dm1" respondedQueue "dm1" = some respondedEntry ∧
    markDirectFallback "dm1" respondedQueue "dm1" = some respondedEntry := by
  exact C1_terminal_marks_immutable respondedQueue 9 "dm1" "dm1" "dm1" "late" "dm1"
    respondedEntry (by decide) (by decide)

/-- Claim C1 counterexample: mark_direct_delivered has no status guard, so a
subsequent call on an entry already in the terminal status responded
overwrites its status to delivered and sets delivered_at, refuting the claim
that no call to any of the four markers changes a terminal entry. -/
theorem C1_delivered_overwrites_terminal :
    respondedQueue "dm1" = some respondedEntry ∧
    terminalStatus respondedEntry.status = true ∧
    markDirectDelivered 7 "dm1" respondedQueue "dm1" ≠ some respondedEntry ∧
    (markDirectDelivered 7 "dm1" respondedQueue "dm1").map (·.status) =
      some "delivered" := by
  refine ⟨by decide, by decide, ?_, by decide⟩
  decide

/-- A row of the talkto agents table (src/talkto/models.py Agent), keyed by
the unique name column; only the columns the claims touch are kept, plus
project and backend_session_id to express frame preservation. -/
structure Agent where
  project : String := "*"
  cli_type : Option String := none
  session_id : Option String := none
  working_dir : Option String := none
  backend_session_id : Option String := none
  deriving Repr, DecidableEq

/-- The agents table of src/talkto/db.py, keyed by the unique agent name. -/
abbrev AgentsTable := String → Option Agent

/-- db.update_agent_cli: returns None when the agent does not exist; otherwise
first clears session_id from every other agent holding it (UPDATE agents SET
session_id=NULL WHERE session_id=? AND name!=?, only run when the new
session_id is truthy), then overwrites cli_type, session_id and working_dir
of the named agent with exactly the supplied arguments. -/
def update_agent_cli (name : String) (cli_type session_id working_dir : Option String)
    (tbl : AgentsTable) : Option AgentsTable :=
  match tbl name with
  | none => none
  | some _ =>
    let cleared : AgentsTable :=
      if truthy session_id then
        fun n => (tbl n).map fun a =>
          if a.session_id = session_id ∧ n ≠ name then { a with session_id := none }
          else a
      else tbl
    some fun n => (cleared n).map fun a =>
      if n = name then
        { a with cli_type := cli_type, session_id := session_id,
                 working_dir := working_dir }
      else a

/-- A row of the backend agents table
(src/backend/app/models/agent.py via agent_registry.py / agent_invoker.py),
keyed by the unique agent_name. -/
structure BAgent where
  agent_type : String := "opencode"
  server_url : Option String := none
  provider_session_id : Option String := none
  deriving Repr, DecidableEq

/-- The backend agents table, keyed by agent_name. -/
abbrev BTable := String → Option BAgent

/-- The credential-persistence step of agent_registry.connect_agent
(src/backend/app/services/agent_registry.py lines 314-318): the reconnecting
agent's server_url and provider_session_id are overwritten when the new
values are truthy; no other row is touched. -/
def connectAgentPersistCreds (agent_name : String)
    (server_url provider_session_id : Option String) (tbl : BTable) : BTable :=
  fun n => (tbl n).map fun a =>
    if n = agent_name then
      { a with
        server_url := if truthy server_url then server_url else a.server_url,
        provider_session_id :=
          if truthy provider_session_id then provider_session_id
          else a.provider_session_id }
    else a

/-- Claim C10: update_agent_cli overwrites all three of cli_type, session_id
and working_dir with exactly the supplied arguments (a None argument clears
the stored value to NULL), while the other columns of the row are preserved;
the uniqueness clearing never touches the named row itself. -/
theorem C10_update_overwrites_all_fields (name : String)
    (cli_type session_id working_dir : Option String) (tbl : AgentsTable)
    (tbl2 : AgentsTable) (a : Agent) (ha : tbl name = some a)
    (hupd : update_agent_cli name cli_type session_id working_dir tbl = some tbl2) :
    tbl2 name = some { a with cli_type := cli_type, session_id := session_id,
                              working_dir := working_dir } := by
  unfold update_agent_cli at hupd
  rw [ha] at hupd
  simp only [Option.some.injEq] at hupd
  subst hupd
  by_cases hts : truthy session_id = true <;> simp [hts, ha]

/-- The nibex row stored before the C10 witness update. -/
def c10tbl : AgentsTable := fun n =>
  if n = "nibex" then
    some { project := "p", cli_type := some "claude",
           session_id := some "ses_abc", working_dir := some "/w",
           backend_session_id := some "b1" : Agent }
  else none

/-- The table produced by the C10 witness update. -/
def c10res : AgentsTable := fun n =>
  (update_agent_cli "nibex" none none none c10tbl).getD c10tbl n

/-- Witness for C10_update_overwrites_all_fields: updating nibex with all-None
arguments clears its previously stored cli fields while keeping the rest. -/
theorem C10_update_overwrites_all_fields_witness :
    update_agent_cli "nibex" none none none c10tbl = some c10res ∧
    c10res "nibex" = some { project := "p", cli_type := none, session_id := none,
                            working_dir := none,
                            backend_session_id := some "b1" : Agent } := by
  refine ⟨rfl, ?_⟩
  exact C10_update_overwrites_all_fields "nibex" none none none c10tbl c10res _
    rfl rfl

/-- Claim C3 (amended part): update_agent_cli enforces session_id uniqueness
on the talkto agents table: after claiming a truthy session_id for an agent,
no other agent row still holds that session_id. -/
theorem C3_update_agent_cli_unique_session (name sid : String) (hsid : sid ≠ "")
    (cli_type working_dir : Option String) (tbl tbl2 : AgentsTable)
    (hupd : update_agent_cli name cli_type (some sid) working_dir tbl = some tbl2)
    (n : String) (a : Agent) (hn : tbl2 n = some a)
    (hhold : a.session_id = some sid) : n = name := by
  unfold update_agent_cli at hupd
  rcases htn : tbl name with _ | a0
  · rw [htn] at hupd; exact absurd hupd (by simp)
  · rw [htn] at hupd
    simp only [Option.some.injEq] at hupd
    subst hupd
    have hts : truthy (some sid) = true := by simp [truthy, hsid]
    by_contra hne
    rw [if_pos hts] at hn
    simp only at hn
    rcases htn2 : tbl n with _ | b
    · rw [htn2] at hn; exact absurd hn (by simp)
    · rw [htn2] at hn
      simp only [Option.map_some', Option.some.injEq] at hn
      rw [if_neg hne] at hn
      by_cases hb : b.session_id = some sid ∧ n ≠ name
      · rw [if_pos hb] at hn
        subst hn
        simp at hhold
      · rw [if_neg hb] at hn
        subst hn
        exact hb ⟨hhold, hne⟩

/-- The two-agent table of the C3 witness: yara holds ses_abc. -/
def c3tbl : AgentsTable := fun n =>
  if n = "nibex" then some { : Agent }
  else if n = "yara" then some { session_id := some "ses_abc" : Agent }
  else none

/-- The table produced by the C3 witness update. -/
def c3res : AgentsTable := fun n =>
  (update_agent_cli "nibex" (some "opencode") (some "ses_abc") none c3tbl).getD
    c3tbl n

/-- Witness for C3_update_agent_cli_unique_session at a concrete two-agent
table: nibex claims ses_abc, the previous holder yara is cleared, and the
theorem applied at the nibex row confirms nibex holds it. -/
theorem C3_update_agent_cli_unique_session_witness :
    update_agent_cli "nibex" (some "opencode") (some "ses_abc") none c3tbl =
      some c3res ∧
    (c3res "yara").map (·.session_id) = some none ∧
    c3res "nibex" = some { cli_type := some "opencode",
                           session_id := some "ses_abc" : Agent } ∧
    "nibex" = "nibex" := by
  refine ⟨rfl, by decide, by decide, ?_⟩
  exact C3_update_agent_cli_unique_session "nibex" "ses_abc" (by decide)
    (some "opencode") none c3tbl c3res rfl "nibex"
    { cli_type := some "opencode", session_id := some "ses_abc" : Agent }
    (by decide) rfl

/-- Claim C3 counterexample: the backend reconnect path
(agent_registry.connect_agent) persists a caller-supplied provider session id
without clearing it from its previous holder: after nibex reconnects claiming
(u, ses_abc), which yara already holds, both rows hold the identical
(server_url, session_id) pair, refuting the claim that every
session-assigning operation clears the previous holder. -/
theorem C3_connect_agent_duplicate_pair :
    (connectAgentPersistCreds "nibex" (some "http://127.0.0.1:19877") (some "ses_abc")
      (fun n => if n = "nibex" then some { : BAgent }
        else if n = "yara" then
          some { server_url := some "http://127.0.0.1:19877",
                 provider_session_id := some "ses_abc" : BAgent }
        else none)) "nibex" =
      some { server_url := some "http://127.0.0.1:19877",
             provider_session_id := some "ses_abc" : BAgent } ∧
    (connectAgentPersistCreds "nibex" (some "http://127.0.0.1:19877") (some "ses_abc")
      (fun n => if n = "nibex" then some { : BAgent }
        else if n = "yara" then
          some { server_url := some "http://127.0.0.1:19877",
                 provider_session_id := some "ses_abc" : BAgent }
        else none)) "yara" =
      some { server_url := some "http://127.0.0.1:19877",
             provider_session_id := some "ses_abc" : BAgent } := by
  constructor <;> decide

/-- Outcome of the GET server_url/session request issued by
agent_invoker._is_session_alive: either the request (or JSON parsing) raised,
or it returned a status code together with the listed session ids. -/
inductive SessionListQuery where
  | exn : SessionListQuery
  | resp (statusCode : Nat) (sessionIds : List String) : SessionListQuery
  deriving Repr, DecidableEq

/-- agent_invoker._is_session_alive: no truthy server_url: assume alive;
request raised: dead; non-200 response: assume alive; 200: alive iff the
session id appears in the returned list. -/
def is_session_alive (session_id : String) (server_url : Option String)
    (q : SessionListQuery) : Bool :=
  if truthy server_url = false then true
  else
    match q with
    | .exn => false
    | .resp code ids => if code ≠ 200 then true else ids.contains session_id

/-- agent_invoker._clear_stale_credentials: set server_url and
provider_session_id to NULL on the named agent. -/
def clearStaleCredentials (agent_name : String) (tbl : BTable) : BTable :=
  fun n => (tbl n).map fun a =>
    if n = agent_name then
      { a with server_url := none, provider_session_id := none }
    else a

/-- The persistence step of agent_invoker._try_auto_discover: store the
discovered server_url and session id on the named agent. -/
def persistDiscovered (agent_name su sid : String) (tbl : BTable) : BTable :=
  fun n => (tbl n).map fun a =>
    if n = agent_name then
      { a with server_url := some su, provider_session_id := some sid }
    else a

/-- agent_invoker._get_agent_invocation_info: looks up the agent; with truthy
credentials it verifies liveness, clearing stale credentials when dead; with
missing or cleared credentials it falls back to on-demand discovery (an
oracle here), persisting any discovered pair.  Returns the updated table and
the (server_url, session_id, agent_type) triple when invocable. -/
def getAgentInvocationInfo (agent_name : String) (q : SessionListQuery)
    (discovery : Option (String × String)) (tbl : BTable) :
    BTable × Option (String × String × String) :=
  match tbl agent_name with
  | none => (tbl, none)
  | some a =>
    if truthy a.server_url && truthy a.provider_session_id then
      if is_session_alive (a.provider_session_id.getD "") a.server_url q then
        (tbl, some (a.server_url.getD "", a.provider_session_id.getD "", a.agent_type))
      else
        match discovery with
        | none => (clearStaleCredentials agent_name tbl, none)
        | some (su, sid) =>
          (persistDiscovered agent_name su sid (clearStaleCredentials agent_name tbl),
           some (su, sid, a.agent_type))
    else
      match discovery with
      | none => (tbl, none)
      | some (su, sid) =>
        (persistDiscovered agent_name su sid tbl, some (su, sid, a.agent_type))

/-- The most recent active row of the backend sessions table for one agent
(src/backend/app/models/session.py); only the pid is relevant here. -/
structure OSSessionRec where
  pid : Nat
  deriving Repr, DecidableEq

/-- agent_invoker.is_agent_ghost: unknown and system agents are never ghosts;
an agent with truthy credentials whose session is alive is not a ghost;
otherwise the agent is a ghost iff it has no active OS session or the active
session's pid is dead (is_pid_alive is the oracle pidAlive). -/
def is_agent_ghost (agent_name : String) (q : SessionListQuery)
    (activeSession : Option OSSessionRec) (pidAlive : Nat → Bool)
    (tbl : BTable) : Bool :=
  match tbl agent_name with
  | none => false
  | some a =>
    if a.agent_type = "system" then false
    else if (truthy a.server_url && truthy a.provider_session_id)
        && is_session_alive (a.provider_session_id.getD "") a.server_url q then
      false
    else
      match activeSession with
      | none => true
      | some s => ! pidAlive s.pid

/-- Claim C5 (amended): when a truthy server_url is configured, a 200 response
makes the agent alive iff the session id is listed, and a raised request
fails toward dead; but a non-200 response or a missing server_url makes
_is_session_alive assume alive (return true) instead of failing toward dead. -/
theorem C5_alive_characterization (sid url : String) (hurl : url ≠ "")
    (ids : List String) (code : Nat) (hcode : code ≠ 200) (q : SessionListQuery) :
    (is_session_alive sid (some url) (.resp 200 ids) = ids.contains sid) ∧
    (is_session_alive sid (some url) .exn = false) ∧
    (is_session_alive sid (some url) (.resp code ids) = true) ∧
    (is_session_alive sid none q = true) := by
  have ht : truthy (some url) = true := by simp [truthy, hurl]
  refine ⟨?_, ?_, ?_, ?_⟩
  · simp [is_session_alive, ht]
  · simp [is_session_alive, ht]
  · simp [is_session_alive, ht, hcode]
  · simp [is_session_alive, truthy]

/-- Witness for C5_alive_characterization at concrete inputs. -/
theorem C5_alive_characterization_witness :
    (is_session_alive "ses_abc" (some "http://127.0.0.1:19877")
        (.resp 200 ["ses_abc", "ses_x"]) = true) ∧
    (is_session_alive "ses_abc" (some "http://127.0.0.1:19877") .exn = false) ∧
    (is_session_alive "ses_abc" (some "http://127.0.0.1:19877")
        (.resp 500 ["ses_abc", "ses_x"]) = true) ∧
    (is_session_alive "ses_abc" none .exn = true) := by
  have h := C5_alive_characterization "ses_abc" "http://127.0.0.1:19877" (by decide)
    ["ses_abc", "ses_x"] 500 (by decide) .exn
  refine ⟨?_, h.2.1, by rw [h.2.2.1], h.2.2.2⟩
  rw [h.1]; decide

/-- Claim C5 counterexample: a query that cannot succeed (missing server_url,
or a non-success response) makes _is_session_alive return true, refuting the
claim that every failed query returns false (fails toward dead). -/
theorem C5_missing_url_returns_alive :
    is_session_alive "ses_abc" none SessionListQuery.exn = true ∧
    is_session_alive "ses_abc" (some "http://127.0.0.1:19877")
      (.resp 503 ["ses_abc"]) = true := by
  constructor <;> decide

/-- Claim C9: an agent name that is not registered in the backend database is
classified by is_agent_ghost as not a ghost (returns false). -/
theorem C9_unknown_agent_not_ghost (agent_name : String) (q : SessionListQuery)
    (activeSession : Option OSSessionRec) (pidAlive : Nat → Bool) (tbl : BTable)
    (h : tbl agent_name = none) :
    is_agent_ghost agent_name q activeSession pidAlive tbl = false := by
  unfold is_agent_ghost
  rw [h]

/-- Witness for C9_unknown_agent_not_ghost on the empty table. -/
theorem C9_unknown_agent_not_ghost_witness :
    is_agent_ghost "phantom" SessionListQuery.exn none (fun _ => false)
      (fun _ => none) = false :=
  C9_unknown_agent_not_ghost "phantom" SessionListQuery.exn none (fun _ => false)
    (fun _ => none) rfl

/-- Claim C6 (amended): a non-system agent with truthy credentials whose
session id is missing from the 200 session listing is a ghost, provided it
also has no active OS session with a live pid; and independently of the OS
session, the next invocation attempt clears the stale server_url and
provider_session_id from the agent record. -/
theorem C6_stale_creds_ghost_and_clear (agent_name u s : String)
    (hu : u ≠ "") (hs : s ≠ "") (ids : List String)
    (hmem : s ∉ ids) (tbl : BTable) (a : BAgent)
    (ha : tbl agent_name = some a) (hty : a.agent_type ≠ "system")
    (hsu : a.server_url = some u) (hsid : a.provider_session_id = some s)
    (activeSession : Option OSSessionRec) (pidAlive : Nat → Bool)
    (hdead : activeSession = none ∨
      ∃ p, activeSession = some ⟨p⟩ ∧ pidAlive p = false) :
    is_agent_ghost agent_name (.resp 200 ids) activeSession pidAlive tbl = true ∧
    ∀ a2, (getAgentInvocationInfo agent_name (.resp 200 ids) none tbl).1 agent_name
        = some a2 →
      a2.server_url = none ∧ a2.provider_session_id = none := by
  have ht : truthy (some u) = true := by simp [truthy, hu]
  have halive : is_session_alive s (some u) (.resp 200 ids) = false := by
    simp [is_session_alive, ht, hmem]
  have htc : (truthy a.server_url && truthy a.provider_session_id) = true := by
    rw [hsu, hsid]; simp [truthy, hu, hs]
  constructor
  · rcases hdead with h | ⟨p, hp, hpd⟩
    · simp [is_agent_ghost, ha, hty, hsu, hsid, halive, h]
    · simp [is_agent_ghost, ha, hty, hsu, hsid, halive, hp, hpd]
  · intro a2 ha2
    have hts : truthy (some s) = true := by simp [truthy, hs]
    simp [getAgentInvocationInfo, ha, htc, hsu, hsid, halive, ht, hts,
      clearStaleCredentials] at ha2
    subst ha2
    exact ⟨rfl, rfl⟩

/-- The backend table of the C6 witness: nibex holds stale credentials. -/
def c6tbl : BTable := fun n =>
  if n = "nibex" then
    some { agent_type := "opencode",
           server_url := some "http://127.0.0.1:19877",
           provider_session_id := some "ses_abc" : BAgent }
  else none

/-- Witness for C6_stale_creds_ghost_and_clear: nibex holds (u, ses_abc), the
listing omits ses_abc, nibex has no active session, and the invocation
attempt leaves the record with both credentials cleared. -/
theorem C6_stale_creds_ghost_and_clear_witness :
    is_agent_ghost "nibex" (.resp 200 ["ses_other"]) none (fun _ => false) c6tbl
      = true ∧
    ((getAgentInvocationInfo "nibex" (.resp 200 ["ses_other"]) none c6tbl).1
        "nibex").map (fun a => (a.server_url, a.provider_session_id)) =
      some (none, none) := by
  refine ⟨(C6_stale_creds_ghost_and_clear "nibex" "http://127.0.0.1:19877"
    "ses_abc" (by decide) (by decide) ["ses_other"] (by decide) c6tbl _ rfl
    (by decide) rfl rfl none (fun _ => false) (Or.inl rfl)).1, by decide⟩

/-- Claim C6 counterexample: nibex holds stale credentials (the 200 listing
omits ses_abc) but still has an active OS session whose pid is alive;
is_agent_ghost then returns false, refuting the claim that stale credentials
alone make every such agent a ghost. -/
theorem C6_live_pid_not_ghost :
    is_agent_ghost "nibex" (.resp 200 ["ses_other"]) (some ⟨4242⟩) (fun _ => true)
      (fun n => if n = "nibex" then
        some { agent_type := "opencode",
               server_url := some "http://127.0.0.1:19877",
               provider_session_id := some "ses_abc" : BAgent }
      else none) = false := by
  decide

/-- Oracle outcomes of the serve-port scan and the four discovery strategies
of agent_discovery.py: discover_opencode_server, discover_session_by_pid,
discover_session_by_tty, discover_session_by_process_scan,
discover_opencode_session. -/
structure DiscoveryEnv where
  serverUrl : Option String
  byPid : Option String
  byTty : Option String
  byScan : Option String
  byApi : Option String
  deriving Repr, DecidableEq

/-- Python truthiness of the optional pid hint: None and 0 are falsy. -/
def truthyPid : Option Int → Bool
  | none => false
  | some n => n ≠ 0

/-- agent_discovery.auto_discover: find the serve URL first (fail outright
without one), then try the strategies in order 1 pid-walk, 2 tty-scan,
3 process-scan, 4 REST listing, stopping at the first that yields a session
id; strategies 1 and 2 run only when their hint is truthy; a failed strategy
4 still returns the server URL with session_id None.  Alongside the result we
record the list of strategies invoked, in invocation order. -/
def auto_discover (pid : Option Int) (tty : Option String) (env : DiscoveryEnv) :
    Option (String × Option String) × List Nat :=
  match env.serverUrl with
  | none => (none, [])
  | some su =>
    let t1 : List Nat := if truthyPid pid then [1] else []
    if truthyPid pid ∧ env.byPid.isSome then (some (su, env.byPid), t1)
    else
      let t2 : List Nat := t1 ++ (if truthy tty then [2] else [])
      if truthy tty ∧ env.byTty.isSome then (some (su, env.byTty), t2)
      else
        let t3 : List Nat := t2 ++ [3]
        if env.byScan.isSome then (some (su, env.byScan), t3)
        else
          let t4 : List Nat := t3 ++ [4]
          match env.byApi with
          | some sid => (some (su, some sid), t4)
          | none => (some (su, none), t4)

/-- Claim C7: the strategies that auto_discover invokes are attempted in the
fixed priority order 1, 2, 3, 4 (the invocation trace is strictly
increasing), and whenever an invoked strategy k yields a session id, no
strategy after k is invoked and that session id is returned with the
discovered server URL. -/
theorem C7_discovery_priority (pid : Option Int) (tty : Option String)
    (env : DiscoveryEnv) (su : String) (hsu : env.serverUrl = some su) :
    List.Chain' (· < ·) (auto_discover pid tty env).2 ∧
    (∀ s, 1 ∈ (auto_discover pid tty env).2 → env.byPid = some s →
      (∀ j ∈ (auto_discover pid tty env).2, j ≤ 1) ∧
      (auto_discover pid tty env).1 = some (su, some s)) ∧
    (∀ s, 2 ∈ (auto_discover pid tty env).2 → env.byTty = some s →
      (∀ j ∈ (auto_discover pid tty env).2, j ≤ 2) ∧
      (auto_discover pid tty env).1 = some (su, some s)) ∧
    (∀ s, 3 ∈ (auto_discover pid tty env).2 → env.byScan = some s →
      (∀ j ∈ (auto_discover pid tty env).2, j ≤ 3) ∧
      (auto_discover pid tty env).1 = some (su, some s)) ∧
    (∀ s, 4 ∈ (auto_discover pid tty env).2 → env.byApi = some s →
      (∀ j ∈ (auto_discover pid tty env).2, j ≤ 4) ∧
      (auto_discover pid tty env).1 = some (su, some s)) := by
  rcases hbp : env.byPid with _ | sp <;>
  rcases hbt : env.byTty with _ | st <;>
  rcases hbs : env.byScan with _ | ss <;>
  rcases hba : env.byApi with _ | sa <;>
  cases hp : truthyPid pid <;>
  cases htt : truthy tty <;>
  simp_all [auto_discover]

/-- Witness for C7_discovery_priority with a pid hint present and every
strategy able to succeed: only strategy 1 runs and its id is returned. -/
theorem C7_discovery_priority_witness :
    List.Chain' (· < ·) (auto_discover (some 77) (some "/dev/ttys003")
      ⟨some "http://127.0.0.1:19877", some "ses_pid", some "ses_tty",
       some "ses_scan", some "ses_api"⟩).2 ∧
    ((auto_discover (some 77) (some "/dev/ttys003")
      ⟨some "http://127.0.0.1:19877", some "ses_pid", some "ses_tty",
       some "ses_scan", some "ses_api"⟩).2 = [1]) ∧
    ((auto_discover (some 77) (some "/dev/ttys003")
      ⟨some "http://127.0.0.1:19877", some "ses_pid", some "ses_tty",
       some "ses_scan", some "ses_api"⟩).1 =
      some ("http://127.0.0.1:19877", some "ses_pid")) := by
  have h := C7_discovery_priority (some 77) (some "/dev/ttys003")
    ⟨some "http://127.0.0.1:19877", some "ses_pid", some "ses_tty",
     some "ses_scan", some "ses_api"⟩ "http://127.0.0.1:19877" rfl
  exact ⟨h.1, by decide, (h.2.1 "ses_pid" (by decide) rfl).2⟩

/-- What the supervisor observes at each second of the post-spawn health-poll
loop of OpenCodeServerBackend.start: either the child process has exited, or
the health request raised (none) or returned (status code, healthy flag). -/
inductive LoopObs where
  | procDead : LoopObs
  | health (resp : Option (Nat × Bool)) : LoopObs
  deriving Repr, DecidableEq

/-- Outcome of the bounded health-poll loop. -/
inductive LoopResult where
  | healthy : LoopResult
  | died : LoopResult
  | timeout : LoopResult
  deriving Repr, DecidableEq

/-- The health-poll loop of OpenCodeServerBackend.start: each iteration first
checks whether the child exited, then probes /global/health, breaking on a
200 healthy response; an exhausted observation list is the 60s timeout. -/
def startWaitLoop : List LoopObs → LoopResult
  | [] => .timeout
  | .procDead :: _ => .died
  | .health (some (code, h)) :: rest =>
    if code = 200 ∧ h = true then .healthy else startWaitLoop rest
  | .health none :: rest => startWaitLoop rest

/-- The environment OpenCodeServerBackend.start runs against. -/
structure StartEnv where
  prevStatus : String
  prevAvailable : Bool
  portInUse : Bool
  healthProbe : Option (Nat × Bool)
  cliFound : Bool
  loopObs : List LoopObs
  deriving Repr, DecidableEq

/-- Result of start: final backend status, whether a child process was
spawned, whether any other process was terminated, and the raised error. -/
structure StartResult where
  status : String
  spawned : Bool
  killedOther : Bool
  error : Option String
  deriving Repr, DecidableEq

/-- The RuntimeError raised when the port is occupied by something that is
not a healthy OpenCode serve. -/
def portConflictMessage : String :=
  "Port is already in use by another process. Set TALKTO_OPENCODE_PORT to a different port or kill the conflicting process."

/-- src/talkto/backends.py OpenCodeServerBackend.start: return immediately if
already running and available; with the port bound, probe /global/health and
reuse a healthy listener (status running, nothing spawned) or raise a
conflict without spawning or killing anything; with the port free, resolve
the CLI, spawn the child and poll health up to the bounded timeout, failing
on early exit or timeout. -/
def OpenCodeServerBackend.start (env : StartEnv) : StartResult :=
  if env.prevStatus = "running" ∧ env.prevAvailable = true then
    { status := "running", spawned := false, killedOther := false, error := none }
  else if env.portInUse then
    match env.healthProbe with
    | some (code, h) =>
      if code = 200 ∧ h = true then
        { status := "running", spawned := false, killedOther := false, error := none }
      else
        { status := "error", spawned := false, killedOther := false,
          error := some portConflictMessage }
    | none =>
      { status := "error", spawned := false, killedOther := false,
        error := some portConflictMessage }
  else if env.cliFound = false then
    { status := "error", spawned := false, killedOther := false,
      error := some "OpenCode CLI not found" }
  else
    match startWaitLoop env.loopObs with
    | .died =>
      { status := "error", spawned := true, killedOther := false,
        error := some "OpenCode serve died during startup" }
    | .timeout =>
      { status := "error", spawned := true, killedOther := false,
        error := some "OpenCode serve did not become healthy within 60s" }
    | .healthy =>
      { status := "running", spawned := true, killedOther := false, error := none }

/-- Claim C8: when start finds the target port already bound (and is not
trivially reusing its own running backend), the existing listener is health
probed: a 200 healthy reply makes the backend running, reusing the listener
with no process spawned; any other reply or a raised probe fails with the
port-conflict error, spawning nothing; in both cases no other process is
terminated. -/
theorem C8_start_port_conflict (env : StartEnv)
    (hprev : ¬(env.prevStatus = "running" ∧ env.prevAvailable = true))
    (hport : env.portInUse = true) :
    ((∃ code h, env.healthProbe = some (code, h) ∧ code = 200 ∧ h = true) →
      OpenCodeServerBackend.start env =
        { status := "running", spawned := false, killedOther := false,
          error := none }) ∧
    ((∀ code h, env.healthProbe = some (code, h) → ¬(code = 200 ∧ h = true)) →
      OpenCodeServerBackend.start env =
        { status := "error", spawned := false, killedOther := false,
          error := some portConflictMessage }) ∧
    (OpenCodeServerBackend.start env).spawned = false ∧
    (OpenCodeServerBackend.start env).killedOther = false := by
  unfold OpenCodeServerBackend.start
  rw [if_neg hprev, if_pos hport]
  rcases hhp : env.healthProbe with _ | ⟨code, h⟩
  · refine ⟨?_, fun _ => rfl, rfl, rfl⟩
    rintro ⟨c, b, hcb, _, _⟩
    simp at hcb
  · by_cases hok : code = 200 ∧ h = true
    · refine ⟨fun _ => by simp [hok], ?_, by simp [hok], by simp [hok]⟩
      intro hall
      exact absurd hok (hall code h rfl)
    · refine ⟨?_, fun _ => by simp [hok], by simp [hok], by simp [hok]⟩
      rintro ⟨c, b, hcb, hc, hb⟩
      simp only [Option.some.injEq, Prod.mk.injEq] at hcb
      exact absurd ⟨by rw [hcb.1]; exact hc, by rw [hcb.2]; exact hb⟩ hok

/-- Witness for C8_start_port_conflict: port 4097 already serves a healthy
/global/health, so start reuses it without spawning. -/
theorem C8_start_port_conflict_witness :
    OpenCodeServerBackend.start
      { prevStatus := "stopped", prevAvailable := false, portInUse := true,
        healthProbe := some (200, true), cliFound := true, loopObs := [] } =
      { status := "running", spawned := false, killedOther := false,
        error := none } := by
  exact (C8_start_port_conflict _ (by decide) rfl).1 ⟨200, true, rfl, rfl, rfl⟩

/-- BackendResult (src/talkto/backends.py): the unified outcome of one
backend invocation, given to the direct-message tail as an oracle. -/
structure BackendResult where
  ok : Bool
  output : String
  error : String
  backend_type : String := "subprocess"
  timed_out : Bool := false
  cli_not_found : Bool := false
  deriving Repr, DecidableEq

/-- The shared state the direct-message paths operate on: the direct_queue
table and the sequence of chat message contents posted so far. -/
structure ChatState where
  queue : Queue
  chat : List String

/-- The queue/chat core of tools.tool_respond_direct (the responder agent is
assumed registered): read the entry, reject a missing entry, a wrong target
or a non-respondable status, run the guarded responded UPDATE, and post the
response to chat only when the UPDATE changed a row. -/
def respondDirect (now : Nat) (agentName entryId resp : String)
    (st : ChatState) : ChatState :=
  match st.queue entryId with
  | none => st
  | some entry =>
    if entry.to_agent ≠ agentName then st
    else if ¬(entry.status = "pending" ∨ entry.status = "delivered") then st
    else
      let upd := markDirectResponded now entryId resp st.queue
      if upd.2 then
        { queue := upd.1,
          chat := st.chat ++
            ["**[Direct response to @" ++ entry.from_agent ++ "]**\n\n" ++
              resp.take 2000] }
      else { st with queue := upd.1 }

/-- The concurrently running smart-pull respond: when the interleaving point
respondAt equals k, the target agent's respond_direct executes here. -/
def maybeRespond (k : Nat) (respondAt : Option Nat) (now : Nat)
    (agentName entryId resp : String) (st : ChatState) : ChatState :=
  if respondAt = some k then respondDirect now agentName entryId resp st else st

/-- The backend_label string of server.direct_message. -/
def backendLabel (r : BackendResult) : String :=
  if r.backend_type ≠ "opencode_server" then " (via " ++ r.backend_type ++ ")"
  else ""

/-- The tail of server.direct_message after the smart-pull wait loop has
elapsed without observing a responded status: re-read the entry (log only),
check subprocess viability from the target loaded before the loop; without a
viable backend mark the entry expired and report it as pending; otherwise run
session discovery (which writes only the agents table), mark the entry
fallback, invoke the backend (oracle `invoke`), and on successful output
re-check the entry, returning the smart-pull response when it is responded
and otherwise posting the fallback output to chat.  `respondAt` selects the
interleaving point at which the concurrent respond_direct runs, if any. -/
def dmTail (now : Nat) (sender toAgent entryId : String) (target : Agent)
    (invoke : BackendResult) (respondAt : Option Nat) (resp : String)
    (st : ChatState) : ChatState × String :=
  let st0 := maybeRespond 0 respondAt now toAgent entryId resp st
  let canSubprocess := truthy target.cli_type &&
    (truthy target.session_id || truthy target.working_dir)
  if canSubprocess = false then
    let st1 : ChatState := { st0 with queue := markDirectExpired entryId st0.queue }
    (st1, "Direct message to @" ++ toAgent ++
      " is pending. They will see it next time they use TalkTo. No subprocess fallback available (agent has no CLI config). The prompt has been posted to chat.")
  else
    let st2 := maybeRespond 1 respondAt now toAgent entryId resp st0
    let st3 : ChatState := { st2 with queue := markDirectFallback entryId st2.queue }
    let st4 := maybeRespond 2 respondAt now toAgent entryId resp st3
    if invoke.timed_out = true then
      (st4, "Direct invoke timed out. " ++ toAgent ++ " might be busy.")
    else if invoke.cli_not_found = true then (st4, invoke.error)
    else if invoke.ok = true ∧ invoke.output ≠ "" then
      let st5 := maybeRespond 3 respondAt now toAgent entryId resp st4
      match st5.queue entryId with
      | some fc =>
        if fc.status = "responded" then
          (st5, "Response from " ++ toAgent ++ ":\n\n" ++ (fc.response.getD "").take 3000)
        else
          let st6 := maybeRespond 4 respondAt now toAgent entryId resp st5
          ({ st6 with chat := st6.chat ++
              ["**[Direct response to @" ++ sender ++ "]**\n\n" ++
                invoke.output.take 2000] },
           "Response from " ++ toAgent ++ backendLabel invoke ++ ":\n\n" ++
             invoke.output.take 3000)
      | none =>
        let st6 := maybeRespond 4 respondAt now toAgent entryId resp st5
        ({ st6 with chat := st6.chat ++
            ["**[Direct response to @" ++ sender ++ "]**\n\n" ++
              invoke.output.take 2000] },
         "Response from " ++ toAgent ++ backendLabel invoke ++ ":\n\n" ++
           invoke.output.take 3000)
    else if invoke.error ≠ "" then
      (st4, "Direct invoke failed (" ++ invoke.backend_type ++ "):\n" ++
        invoke.error.take 1000)
    else
      (st4, "Direct invoke completed but produced no output.")

/-- The auto-mode tail of server.api_direct after its smart-pull wait loop
has elapsed: mark the entry fallback at once, reject agents without cli
config (400 responses carry no output), run discovery (agents table only),
invoke the backend, and post the fallback output to chat when requested,
returning the fallback output with no re-check of the entry. -/
def apiDirectTail (now : Nat) (agentName entryId : String) (agent : Agent)
    (invoke : BackendResult) (postToChat : Bool) (respondAt : Option Nat)
    (resp : String) (st : ChatState) : ChatState × Option String :=
  let st0 := maybeRespond 0 respondAt now agentName entryId resp st
  let st1 : ChatState := { st0 with queue := markDirectFallback entryId st0.queue }
  if truthy agent.cli_type = false then (st1, none)
  else if truthy agent.session_id = false ∧ truthy agent.working_dir = false then
    (st1, none)
  else
    let st2 := maybeRespond 1 respondAt now agentName entryId resp st1
    if invoke.timed_out = true then (st2, none)
    else if invoke.cli_not_found = true then (st2, none)
    else
      let st3 : ChatState :=
        if postToChat = true ∧ invoke.output ≠ "" then
          { st2 with chat := st2.chat ++
              ["**[Direct response to @yash]**\n\n" ++ invoke.output.take 2000] }
        else st2
      (st3, some invoke.output)

/-- respond_direct leaves the state untouched when the entry is missing or
not in a respondable status. -/
theorem respondDirect_noop (now : Nat) (agentName entryId resp : String)
    (st : ChatState)
    (h : ∀ e, st.queue entryId = some e → canRespondStatus e.status = false) :
    respondDirect now agentName entryId resp st = st := by
  unfold respondDirect
  rcases hq : st.queue entryId with _ | e
  · rfl
  · have he := h e hq
    simp only [canRespondStatus, Bool.or_eq_false_iff, decide_eq_false_iff_not] at he
    by_cases hta : e.to_agent ≠ agentName
    · simp [hta]
    · simp [hta, he.1, he.2]

/-- respond_direct either leaves the chat unchanged or appends exactly one
direct-response post carrying the smart-pull response text. -/
theorem respondDirect_chat (now : Nat) (agentName entryId resp : String)
    (st : ChatState) :
    (respondDirect now agentName entryId resp st).chat = st.chat ∨
    ∃ fa, (respondDirect now agentName entryId resp st).chat =
      st.chat ++
        ["**[Direct response to @" ++ fa ++ "]**\n\n" ++ resp.take 2000] := by
  unfold respondDirect
  rcases hq : st.queue entryId with _ | e
  · exact Or.inl rfl
  · by_cases hta : e.to_agent ≠ agentName
    · simp [hta]
    · by_cases hst : e.status = "pending" ∨ e.status = "delivered"
      · right
        refine ⟨e.from_agent, ?_⟩
        have hcr : canRespondStatus e.status = true := by
          rcases hst with h | h <;> rw [h] <;> decide
        simp [hta, hst, markDirectResponded, hq, hcr]
      · simp [hta, hst]

/-- maybeRespond is the identity when the entry is not respondable. -/
theorem maybeRespond_noop (k : Nat) (respondAt : Option Nat) (now : Nat)
    (agentName entryId resp : String) (st : ChatState)
    (h : ∀ e, st.queue entryId = some e → canRespondStatus e.status = false) :
    maybeRespond k respondAt now agentName entryId resp st = st := by
  unfold maybeRespond
  split
  · exact respondDirect_noop now agentName entryId resp st h
  · rfl

/-- maybeRespond either leaves the chat unchanged or appends exactly the one
direct-response post. -/
theorem maybeRespond_chat (k : Nat) (respondAt : Option Nat) (now : Nat)
    (agentName entryId resp : String) (st : ChatState) :
    (maybeRespond k respondAt now agentName entryId resp st).chat = st.chat ∨
    ∃ fa, (maybeRespond k respondAt now agentName entryId resp st).chat =
      st.chat ++
        ["**[Direct response to @" ++ fa ++ "]**\n\n" ++ resp.take 2000] := by
  unfold maybeRespond
  split
  · exact respondDirect_chat now agentName entryId resp st
  · exact Or.inl rfl

/-- maybeRespond is the identity at every interleaving point other than the
chosen one. -/
theorem maybeRespond_skip (k : Nat) (respondAt : Option Nat) (now : Nat)
    (agentName entryId resp : String) (st : ChatState)
    (h : respondAt ≠ some k) :
    maybeRespond k respondAt now agentName entryId resp st = st := by
  unfold maybeRespond
  exact if_neg h

/-- After mark_direct_fallback, the marked entry is never in a respondable
status: a pending or delivered entry became fallback, and any other entry
kept its non-respondable status. -/
theorem markDirectFallback_not_respondable (entryId : String) (q : Queue)
    (e2 : DirectQueueEntry)
    (h : markDirectFallback entryId q entryId = some e2) :
    canRespondStatus e2.status = false := by
  unfold markDirectFallback at h
  rw [if_pos rfl] at h
  rcases hq : q entryId with _ | e
  · rw [hq] at h
    exact absurd h (by simp)
  · rw [hq] at h
    simp only [Option.map_some', Option.some.injEq] at h
    rcases hb : canRespondStatus e.status with _ | _
    · rw [hb] at h
      simp at h
      rw [← h]
      exact hb
    · rw [hb] at h
      simp at h
      rw [← h]
      rfl

/-- Claim C4 (amended): in the MCP direct_message path, for every
interleaving point of a concurrent respond_direct with the post-timeout
tail, if the fallback invocation ran (viable backend, no timeout, CLI found,
successful output) and the entry ends in status responded, the caller
receives the smart-pull response, the fallback output is never posted to
chat, and at most the single smart-pull response post is appended. -/
theorem C4_direct_message_race_guard (now : Nat)
    (sender toAgent entryId resp : String) (target : Agent)
    (invoke : BackendResult) (respondAt : Option Nat) (st : ChatState)
    (fc : DirectQueueEntry)
    (hcan : (truthy target.cli_type &&
      (truthy target.session_id || truthy target.working_dir)) = true)
    (htmo : invoke.timed_out = false) (hcnf : invoke.cli_not_found = false)
    (hok : invoke.ok = true) (hout : invoke.output ≠ "")
    (hfc : (dmTail now sender toAgent entryId target invoke respondAt resp
      st).1.queue entryId = some fc)
    (hresp : fc.status = "responded") :
    (dmTail now sender toAgent entryId target invoke respondAt resp st).2 =
      "Response from " ++ toAgent ++ ":\n\n" ++ (fc.response.getD "").take 3000 ∧
    ((dmTail now sender toAgent entryId target invoke respondAt resp st).1.chat =
        st.chat ∨
      ∃ fa, (dmTail now sender toAgent entryId target invoke respondAt resp
          st).1.chat =
        st.chat ++
          ["**[Direct response to @" ++ fa ++ "]**\n\n" ++ resp.take 2000]) := by
  have hcan' : ¬((truthy target.cli_type &&
      (truthy target.session_id || truthy target.working_dir)) = false) := by
    rw [hcan]; decide
  have htmo' : ¬(invoke.timed_out = true) := by rw [htmo]; decide
  have hcnf' : ¬(invoke.cli_not_found = true) := by rw [hcnf]; decide
  simp only [dmTail] at hfc ⊢
  rw [if_neg hcan', if_neg htmo', if_neg hcnf', if_pos ⟨hok, hout⟩] at hfc ⊢
  set st0 := maybeRespond 0 respondAt now toAgent entryId resp st with hst0
  set st2 := maybeRespond 1 respondAt now toAgent entryId resp st0 with hst2
  set st3 : ChatState := { st2 with queue := markDirectFallback entryId st2.queue }
    with hst3
  set st4 := maybeRespond 2 respondAt now toAgent entryId resp st3 with hst4
  set st5 := maybeRespond 3 respondAt now toAgent entryId resp st4 with hst5
  have hq3 : ∀ e, st3.queue entryId = some e → canRespondStatus e.status = false :=
    fun e he => markDirectFallback_not_respondable entryId st2.queue e he
  have h43 : st4 = st3 := by
    rw [hst4]
    exact maybeRespond_noop 2 respondAt now toAgent entryId resp st3 hq3
  have h53 : st5 = st3 := by
    rw [hst5, h43]
    exact maybeRespond_noop 3 respondAt now toAgent entryId resp st3 hq3
  rw [h53] at hfc ⊢
  have hm4 : maybeRespond 4 respondAt now toAgent entryId resp st3 = st3 :=
    maybeRespond_noop 4 respondAt now toAgent entryId resp st3 hq3
  rw [hm4] at hfc ⊢
  have hchat : st3.chat = st.chat ∨
      ∃ fa, st3.chat = st.chat ++
        ["**[Direct response to @" ++ fa ++ "]**\n\n" ++ resp.take 2000] := by
    have h3c : st3.chat = st2.chat := by rw [hst3]
    rw [h3c]
    by_cases h0 : respondAt = some 0
    · have h20 : st2 = st0 := by
        rw [hst2]
        exact maybeRespond_skip 1 respondAt now toAgent entryId resp st0
          (by rw [h0]; simp)
      rw [h20, hst0]
      exact maybeRespond_chat 0 respondAt now toAgent entryId resp st
    · have h0s : st0 = st := by
        rw [hst0]
        exact maybeRespond_skip 0 respondAt now toAgent entryId resp st h0
      rw [hst2, h0s]
      exact maybeRespond_chat 1 respondAt now toAgent entryId resp st
  revert hfc
  rcases hq : st3.queue entryId with _ | fc2 <;> intro hfc
  · have hq' : markDirectFallback entryId st2.queue entryId = none := hq
    simp only [hq'] at hfc
    exact absurd hfc (by simp)
  · have hq' : markDirectFallback entryId st2.queue entryId = some fc2 := hq
    by_cases hr2 : fc2.status = "responded"
    · simp only [hq', hr2, reduceIte] at hfc
      have hfc2 : fc2 = fc := by simpa using hfc
      subst hfc2
      simp only [hr2, reduceIte]
      exact ⟨by trivial, hchat⟩
    · simp only [hq', hr2, reduceIte] at hfc
      have hfc2 : fc2 = fc := by simpa using hfc
      subst hfc2
      exact absurd hresp hr2

/-- A target agent with full subprocess capability. -/
def claudeTarget : Agent :=
  { cli_type := some "claude", session_id := some "ses_t",
    working_dir := some "/w" }

/-- A successful fallback invocation outcome. -/
def fbResult : BackendResult := { ok := true, output := "FB", error := "" }

/-- A pending entry from yara to nibex. -/
def pendingPing : DirectQueueEntry :=
  { id := "dm2", from_agent := "yara", to_agent := "nibex", prompt := "ping",
    wrapped_prompt := "wrapped ping" }

/-- Initial state: only the pending entry dm2, empty chat. -/
def pendingState : ChatState :=
  { queue := fun i => if i = "dm2" then some pendingPing else none, chat := [] }

set_option maxRecDepth 8000 in
/-- Claim C2 divergence (code bug evidence): when the smart-pull wait elapses
with no response and the target has no viable backend (no cli_type),
direct_message marks the pending entry EXPIRED via mark_direct_expired —
while returning text that calls the message pending — so the status does not
remain pending as the spec requires. -/
theorem C2_no_backend_marks_expired :
    ((dmTail 50 "yara" "nibex" "dm2" { : Agent } fbResult none ""
        pendingState).1.queue "dm2").map (·.status) = some "expired" ∧
    (dmTail 50 "yara" "nibex" "dm2" { : Agent } fbResult none ""
        pendingState).2 =
      "Direct message to @nibex is pending. They will see it next time they use TalkTo. No subprocess fallback available (agent has no CLI config). The prompt has been posted to chat." := by
  constructor <;> rfl

/-- A pending entry from yara to nibex used by the race-guard witness. -/
def pendingW : DirectQueueEntry :=
  { id := "dm3", from_agent := "yara", to_agent := "nibex", prompt := "ping",
    wrapped_prompt := "w" }

/-- Initial state for the race-guard witness. -/
def stW : ChatState :=
  { queue := fun i => if i = "dm3" then some pendingW else none, chat := [] }

/-- The entry dm3 after the concurrent respond_direct ran at point 0. -/
def respondedW : DirectQueueEntry :=
  { pendingW with
    status := "responded", responded_at := some 60, response := some "SP" }

set_option maxRecDepth 8000 in
/-- Witness for C4_direct_message_race_guard: the response lands between the
wait loop and the fallback marking; the caller gets the smart-pull response
and only its post is appended to chat. -/
theorem C4_direct_message_race_guard_witness :
    (dmTail 60 "yara" "nibex" "dm3" claudeTarget fbResult (some 0) "SP"
        stW).2 =
      "Response from " ++ "nibex" ++ ":\n\n" ++
        (respondedW.response.getD "").take 3000 ∧
    (dmTail 60 "yara" "nibex" "dm3" claudeTarget fbResult (some 0) "SP"
        stW).1.chat =
      stW.chat ++
        ["**[Direct response to @" ++ "yara" ++ "]**\n\n" ++
          ("SP" : String).take 2000] := by
  refine ⟨(C4_direct_message_race_guard 60 "yara" "nibex" "dm3" "SP"
    claudeTarget fbResult (some 0) stW respondedW (by decide) rfl rfl rfl
    (by decide) (by decide) rfl).1, ?_⟩
  rfl

/-- A pending entry from yash to nibex as enqueued by api_direct. -/
def pendingYash : DirectQueueEntry :=
  { id := "dm4", from_agent := "yash", to_agent := "nibex", prompt := "ping",
    wrapped_prompt := "w" }

/-- Initial state for the api_direct counterexample. -/
def stY : ChatState :=
  { queue := fun i => if i = "dm4" then some pendingYash else none, chat := [] }

set_option maxRecDepth 8000 in
/-- Claim C4 counterexample: the REST api_direct path has no post-invoke
re-check; with the smart-pull response landing between the end of the wait
loop and the fallback marking, respond_direct posts the smart-pull response,
the fallback invocation still runs, its output is also posted to chat and is
the returned payload: both responses are posted and the caller does not
receive the smart-pull response, refuting the claim for api_direct. -/
theorem C4_api_direct_double_post :
    ((apiDirectTail 60 "nibex" "dm4" claudeTarget fbResult true (some 0) "SP"
        stY).1.queue "dm4").map (·.status) = some "responded" ∧
    (apiDirectTail 60 "nibex" "dm4" claudeTarget fbResult true (some 0) "SP"
        stY).1.chat =
      ["**[Direct response to @" ++ "yash" ++ "]**\n\n" ++ ("SP" : String).take 2000,
       "**[Direct response to @yash]**\n\n" ++ ("FB" : String).take 2000] ∧
    (apiDirectTail 60 "nibex" "dm4" claudeTarget fbResult true (some 0) "SP"
        stY).2 = some "FB" := by
  refine ⟨by rfl, by rfl, by rfl⟩

end TalkTo
